import Mathlib

/-!
Verification of the Client Session & Task-List State Core of the
react-zero-to-hero repository against its specification.

The development shallowly embeds the relevant TypeScript sources:

* `src/components/TodoList.tsx` — the `todoReducer` transition function and
  the `TodoList` component's wiring of reducer state to `useLocalStorage`;
* `src/hooks/useLocalStorage.ts` (shown in the Step-4 lesson document) —
  the lazy initializer reading `localStorage` through `JSON.parse`, and the
  effect writing `JSON.stringify(value)` back;
* `src/store/authSlice.ts` — the token-based Redux session model
  (`initialState`, `login`, `logout`) together with its `localStorage` key
  `authToken`;
* `src/context/AuthContext.tsx` — the context-based token session model
  (`AuthProvider`), whose `isAuthenticated` is derived as `!!token` and whose
  effect mirrors the token into `localStorage`;
* `src/hooks/useAuthCheck.ts` and the cookie-based `authSlice` variant of the
  Step-7 lesson document — the cookie session model whose flag is flipped
  only by the completion handlers of network calls.

JavaScript `Date.now()` is modelled as an explicit `now : Nat` argument
threaded to the reducer; `localStorage` entries are `Option String` values
(one per fixed key); JavaScript truthiness of `string | null` is modelled by
`truthyOptStr`; `JSON.parse` on a task-list payload is modelled by the
executable parser `parseTodos`, which accepts exactly the shape
`JSON.stringify` emits for a `Todo[]`, and a payload it rejects corresponds
to `JSON.parse` throwing, modelled as `Except.error`.
-/

/-- A todo item as declared in `src/types/type.d.ts`:
`{ id: number; text: string; completed: boolean }`. -/
structure Todo where
  id : Nat
  text : String
  completed : Bool
deriving DecidableEq, Repr

/-- The action union (named `Action` in `src/types/type.d.ts`; renamed here because Mathlib already declares `Action`) dispatched to `todoReducer`:
`{ type: 'ADD', payload: string } | { type: 'TOGGLE', payload: number } |
{ type: 'REMOVE', payload: number }`. -/
inductive TodoAction where
  | ADD (payload : String)
  | TOGGLE (payload : Nat)
  | REMOVE (payload : Nat)
deriving DecidableEq, Repr

/-- Embeds `todoReducer` from `src/components/TodoList.tsx`.  The ambient
clock `now` stands for the value `Date.now()` returns during the reduction;
it is only read by the `ADD` branch.  `ADD` appends
`{ id: Date.now(), text: payload, completed: false }`; `TOGGLE` maps over the
list flipping `completed` on every entry whose `id` equals the payload;
`REMOVE` filters out entries whose `id` equals the payload. -/
def todoReducer (now : Nat) (state : List Todo) (action : TodoAction) : List Todo :=
  match action with
  | .ADD payload =>
      state ++ [{ id := now, text := payload, completed := false }]
  | .TOGGLE payload =>
      state.map (fun todo =>
        if todo.id == payload then { todo with completed := !todo.completed } else todo)
  | .REMOVE payload =>
      state.filter (fun todo => todo.id != payload)

/-- Claim C1: for every sequence of ADD operations — including two ADD calls
issued within the same millisecond — the resulting ids are pairwise distinct
and the length equals the number of non-rejected ADD calls.  The code
violates the distinctness half: `todoReducer` uses the raw `Date.now()`
value as the id, so two ADD dispatches reduced within the same millisecond
(`now = 1000` both times) produce two tasks that both carry id 1000.  The
length half does hold on this run (two ADD calls, two tasks). -/
theorem add_same_millisecond_duplicate_ids :
    (todoReducer 1000 (todoReducer 1000 [] (.ADD "a")) (.ADD "b")).length = 2 ∧
    (todoReducer 1000 (todoReducer 1000 [] (.ADD "a")) (.ADD "b")).map Todo.id
      = [1000, 1000] ∧
    ¬ ((todoReducer 1000 (todoReducer 1000 [] (.ADD "a")) (.ADD "b")).map Todo.id).Nodup := by
  refine ⟨rfl, rfl, ?_⟩
  decide

/-- Claim C7: applying TOGGLE with the same id twice in succession restores
every task's `completed` value (involution).  This holds for every list,
even one with duplicate ids, because the `TOGGLE` branch preserves `id` on
every entry, so the second pass flips exactly the entries the first pass
flipped. -/
theorem toggle_involution (n₁ n₂ p : Nat) (l : List Todo) :
    (todoReducer n₂ (todoReducer n₁ l (.TOGGLE p)) (.TOGGLE p)).map Todo.completed
      = l.map Todo.completed := by
  simp only [todoReducer]
  induction l with
  | nil => rfl
  | cons t ts ih =>
      simp only [List.map_cons, List.cons.injEq]
      refine ⟨?_, ih⟩
      cases h : (t.id == p) <;> simp [h]

/-- The `TOGGLE` branch preserves every entry's `id`. -/
lemma toggle_map_id (p : Nat) (l : List Todo) :
    (l.map (fun todo =>
        if todo.id == p then { todo with completed := !todo.completed } else todo)).map Todo.id
      = l.map Todo.id := by
  induction l with
  | nil => rfl
  | cons t ts ih =>
      simp only [List.map_cons, List.cons.injEq]
      refine ⟨?_, ih⟩
      cases h : (t.id == p) <;> simp [h]

/-- The `TOGGLE` branch preserves every entry's `text`. -/
lemma toggle_map_text (p : Nat) (l : List Todo) :
    (l.map (fun todo =>
        if todo.id == p then { todo with completed := !todo.completed } else todo)).map Todo.text
      = l.map Todo.text := by
  induction l with
  | nil => rfl
  | cons t ts ih =>
      simp only [List.map_cons, List.cons.injEq]
      refine ⟨?_, ih⟩
      cases h : (t.id == p) <;> simp [h]

/-- The `TOGGLE` branch flips `completed` exactly on the entries whose id
matches the payload. -/
lemma toggle_map_completed (p : Nat) (l : List Todo) :
    (l.map (fun todo =>
        if todo.id == p then { todo with completed := !todo.completed } else todo)).map
        Todo.completed
      = l.map (fun t => if t.id == p then !t.completed else t.completed) := by
  induction l with
  | nil => rfl
  | cons t ts ih =>
      simp only [List.map_cons, List.cons.injEq]
      refine ⟨?_, ih⟩
      cases h : (t.id == p) <;> simp [h]

/-- When no entry's id matches the payload, the `TOGGLE` branch returns the
list unchanged. -/
lemma toggle_noop_of_not_mem (p : Nat) (l : List Todo) (hp : p ∉ l.map Todo.id) :
    l.map (fun todo =>
        if todo.id == p then { todo with completed := !todo.completed } else todo)
      = l := by
  induction l with
  | nil => rfl
  | cons t ts ih =>
      simp only [List.map_cons, List.mem_cons, not_or] at hp
      have ht : (t.id == p) = false := by
        simp only [beq_eq_false_iff_ne, ne_eq]
        exact fun hc => hp.1 (by simp [hc])
      simp only [List.map_cons, List.cons.injEq]
      exact ⟨by simp [ht], ih hp.2⟩

/-- With pairwise-distinct ids, at most one entry's id equals the payload. -/
lemma countP_matching_le_one (p : Nat) (l : List Todo)
    (h : (l.map Todo.id).Nodup) :
    l.countP (fun t => t.id == p) ≤ 1 := by
  have hc : l.countP (fun t => t.id == p) = (l.map Todo.id).count p := by
    simp only [List.count, List.countP_map]
    rfl
  rw [hc]
  exact List.nodup_iff_count_le_one.mp h p

/-- Claim C6: for a list with pairwise-distinct ids, TOGGLE(id) preserves
length, order, every entry's `id` and `text`, and flips `completed` exactly
on the entries whose id matches — of which there is at most one, ids being
distinct; and when no entry matches, the result is the unchanged list (the
final conjunct reduces to `todoReducer … = l` when `p` is not among the
ids). -/
theorem toggle_frame (now p : Nat) (l : List Todo) (h : (l.map Todo.id).Nodup) :
    (todoReducer now l (.TOGGLE p)).length = l.length ∧
    (todoReducer now l (.TOGGLE p)).map Todo.id = l.map Todo.id ∧
    (todoReducer now l (.TOGGLE p)).map Todo.text = l.map Todo.text ∧
    (todoReducer now l (.TOGGLE p)).map Todo.completed
      = l.map (fun t => if t.id == p then !t.completed else t.completed) ∧
    l.countP (fun t => t.id == p) ≤ 1 ∧
    todoReducer now l (.TOGGLE p)
      = (if p ∈ l.map Todo.id then todoReducer now l (.TOGGLE p) else l) := by
  refine ⟨?_, ?_, ?_, ?_, ?_, ?_⟩
  · simp [todoReducer]
  · simpa only [todoReducer] using toggle_map_id p l
  · simpa only [todoReducer] using toggle_map_text p l
  · simpa only [todoReducer] using toggle_map_completed p l
  · exact countP_matching_le_one p l h
  · by_cases hm : p ∈ l.map Todo.id
    · simp [hm]
    · simp only [hm, if_false, todoReducer]
      exact toggle_noop_of_not_mem p l hm

/-- Witness for `toggle_frame` at the concrete list
`[{id 1, "a", false}, {id 2, "b", true}]` with payload 1. -/
theorem toggle_frame_witness :
    (([⟨1, "a", false⟩, ⟨2, "b", true⟩] : List Todo).map Todo.id).Nodup ∧
    ((todoReducer 0 [⟨1, "a", false⟩, ⟨2, "b", true⟩] (.TOGGLE 1)).length
        = ([⟨1, "a", false⟩, ⟨2, "b", true⟩] : List Todo).length ∧
      (todoReducer 0 [⟨1, "a", false⟩, ⟨2, "b", true⟩] (.TOGGLE 1)).map Todo.id
        = ([⟨1, "a", false⟩, ⟨2, "b", true⟩] : List Todo).map Todo.id ∧
      (todoReducer 0 [⟨1, "a", false⟩, ⟨2, "b", true⟩] (.TOGGLE 1)).map Todo.text
        = ([⟨1, "a", false⟩, ⟨2, "b", true⟩] : List Todo).map Todo.text ∧
      (todoReducer 0 [⟨1, "a", false⟩, ⟨2, "b", true⟩] (.TOGGLE 1)).map Todo.completed
        = ([⟨1, "a", false⟩, ⟨2, "b", true⟩] : List Todo).map
            (fun t => if t.id == 1 then !t.completed else t.completed) ∧
      ([⟨1, "a", false⟩, ⟨2, "b", true⟩] : List Todo).countP (fun t => t.id == 1) ≤ 1 ∧
      todoReducer 0 [⟨1, "a", false⟩, ⟨2, "b", true⟩] (.TOGGLE 1)
        = (if 1 ∈ ([⟨1, "a", false⟩, ⟨2, "b", true⟩] : List Todo).map Todo.id
            then todoReducer 0 [⟨1, "a", false⟩, ⟨2, "b", true⟩] (.TOGGLE 1)
            else [⟨1, "a", false⟩, ⟨2, "b", true⟩])) :=
  ⟨by decide, toggle_frame 0 1 [⟨1, "a", false⟩, ⟨2, "b", true⟩] (by decide)⟩

/-- `JSON.stringify` on one `Todo` record: the compact object form
`{"id":<n>,"text":"<s>","completed":<b>}` that `JSON.stringify` emits for
`{ id, text, completed }`. -/
def serializeTodo (t : Todo) : String :=
  "\x7b\x22id\x22:" ++ toString t.id ++ ",\x22text\x22:\x22" ++ t.text ++ "\x22,\x22completed\x22:"
    ++ (if t.completed then "true" else "false") ++ "\x7d"

/-- `JSON.stringify` on a `Todo[]`: the records joined by commas inside
square brackets, `[]` for the empty list. -/
def serializeTodos (l : List Todo) : String :=
  "[" ++ String.intercalate "," (l.map serializeTodo) ++ "]"

/-- Consumes an expected literal character sequence from the front of the
input, failing when the input deviates from it. -/
def consumeLit : List Char → List Char → Option (List Char)
  | [], cs => some cs
  | _ :: _, [] => none
  | e :: es, c :: cs => if c = e then consumeLit es cs else none

/-- Splits the longest leading run of decimal digits off the input. -/
def takeDigits : List Char → List Char × List Char
  | [] => ([], [])
  | c :: cs =>
      if c.isDigit then
        let (ds, r) := takeDigits cs
        (c :: ds, r)
      else ([], c :: cs)

/-- Numeric value of a digit run. -/
def digitsToNat (ds : List Char) : Nat :=
  ds.foldl (fun n c => 10 * n + (c.toNat - 48)) 0

/-- Parses a JSON number (a nonempty digit run). -/
def parseNat (cs : List Char) : Option (Nat × List Char) :=
  match takeDigits cs with
  | ([], _) => none
  | (ds, r) => some (digitsToNat ds, r)

/-- Consumes the body of a JSON string up to its closing quote.  Escape
sequences are not modelled: a backslash makes the payload unparseable here,
which only narrows the set of payloads the model accepts. -/
def takeStringChars : List Char → Option (List Char × List Char)
  | [] => none
  | c :: cs =>
      if c = '\x22' then some ([], cs)
      else if c = '\x5c' then none
      else
        match takeStringChars cs with
        | some (s, r) => some (c :: s, r)
        | none => none

/-- Parses a JSON string literal. -/
def parseStringLit (cs : List Char) : Option (String × List Char) :=
  match cs with
  | '\x22' :: rest => (takeStringChars rest).map (fun p => (String.mk p.1, p.2))
  | _ => none

/-- Parses a JSON boolean literal. -/
def parseBoolLit (cs : List Char) : Option (Bool × List Char) :=
  match consumeLit "true".data cs with
  | some r => some (true, r)
  | none =>
      match consumeLit "false".data cs with
      | some r => some (false, r)
      | none => none

/-- Parses one serialized `Todo` object in the exact field order
`JSON.stringify` produces. -/
def parseTodoObj (cs : List Char) : Option (Todo × List Char) := do
  let cs ← consumeLit "\x7b\x22id\x22:".data cs
  let (id, cs) ← parseNat cs
  let cs ← consumeLit ",\x22text\x22:".data cs
  let (text, cs) ← parseStringLit cs
  let cs ← consumeLit ",\x22completed\x22:".data cs
  let (completed, cs) ← parseBoolLit cs
  let cs ← consumeLit "\x7d".data cs
  some (⟨id, text, completed⟩, cs)

/-- Parses a comma-separated nonempty sequence of serialized `Todo`
objects; the fuel bounds the recursion by the input length. -/
def parseTodoItems : Nat → List Char → Option (List Todo × List Char)
  | 0, _ => none
  | fuel + 1, cs => do
      let (t, cs) ← parseTodoObj cs
      match cs with
      | ',' :: rest => do
          let (ts, cs) ← parseTodoItems fuel rest
          some (t :: ts, cs)
      | other => some ([t], other)

/-- `JSON.parse` restricted to task-list payloads: accepts exactly the
bracketed comma-separated object form `JSON.stringify` emits for a
`Todo[]`; every other payload is unparseable (where the real `JSON.parse`
either throws or yields a value that is not a task list). -/
def parseTodos (s : String) : Option (List Todo) :=
  match s.data with
  | ['[', ']'] => some []
  | '[' :: rest => do
      let (ts, cs) ← parseTodoItems (rest.length + 1) rest
      match cs with
      | [']'] => some ts
      | _ => none
  | _ => none

/-- Embeds the lazy initializer of `useLocalStorage` (Step-4 lesson,
`src/hooks/useLocalStorage.ts`), instantiated at `Todo[]`:
`const stored = localStorage.getItem(key); return stored ?
JSON.parse(stored) : initialValue;`.  A `null` or `""` entry is falsy, so
the initial value is used; any other entry goes through `JSON.parse`, whose
throw on an unparseable payload is modelled as `Except.error` carrying the
JavaScript error name. -/
def useLocalStorageInit (stored : Option String) (initialValue : List Todo) :
    Except String (List Todo) :=
  match stored with
  | none => .ok initialValue
  | some s =>
      if s = "" then .ok initialValue
      else
        match parseTodos s with
        | some v => .ok v
        | none => .error "SyntaxError"

/-- The observable state of the mounted `TodoList` component
(`src/components/TodoList.tsx`): `todos` is the `useLocalStorage` value (its
setter `setTodos` is never invoked by the component), `state` is the
`useReducer` state seeded from `todos`, and `storage` is the `localStorage`
entry under the key `todos`. -/
structure TodoListComp where
  todos : List Todo
  state : List Todo
  storage : Option String
deriving DecidableEq, Repr

/-- Mounting `TodoList` over a given persisted entry: the `useLocalStorage`
initializer computes `todos` (propagating a `JSON.parse` throw), `useReducer`
seeds its state from `todos`, and the hook's effect runs once, writing
`JSON.stringify(todos)` under the key. -/
def mountTodoList (stored : Option String) : Except String TodoListComp := do
  let todos ← useLocalStorageInit stored []
  return { todos := todos, state := todos, storage := some (serializeTodos todos) }

/-- Dispatching an action on the mounted `TodoList`: `useReducer` replaces
`state` with `todoReducer state action`.  Nothing else changes: the
component never calls `setTodos`, so the `useLocalStorage` value stays at
its mount-time `todos` and the hook's effect (whose dependencies
`[key, value]` are unchanged) never re-fires — the `localStorage` entry is
left as it was. -/
def dispatchTodoList (now : Nat) (action : TodoAction) (c : TodoListComp) : TodoListComp :=
  { c with state := todoReducer now c.state action }

/-- Claim C2: after every mutating dispatch the `todos` storage entry should
equal the serialization of the resulting list.  The shipped `TodoList`
violates this on the very first ADD: mounting over an absent entry writes
`"[]"`, and dispatching ADD produces the one-task state while the storage
entry still holds `"[]"`, not the serialization of that state — dispatch
feeds `todoReducer` state to `useReducer` only, and `setTodos` is never
called. -/
theorem dispatch_does_not_persist :
    mountTodoList none = .ok ⟨[], [], some "[]"⟩ ∧
    (dispatchTodoList 1000 (.ADD "a") ⟨[], [], some "[]"⟩).state
      = [⟨1000, "a", false⟩] ∧
    (dispatchTodoList 1000 (.ADD "a") ⟨[], [], some "[]"⟩).storage = some "[]" ∧
    serializeTodos [⟨1000, "a", false⟩] ≠ "[]" := by
  refine ⟨rfl, rfl, rfl, ?_⟩
  decide

/-- Claim C3: an unparseable persisted payload should behave as if the
entry were absent (empty list, no error).  The code violates this: the
`useLocalStorage` initializer calls `JSON.parse(stored)` with no
`try`/`catch`, so the payload `"not-json"` makes `JSON.parse` throw a
`SyntaxError` that propagates out of the hook and aborts the component
mount, instead of falling back to the empty list.  Only an absent or
empty-string entry falls back to the initial value. -/
theorem corrupt_payload_propagates :
    useLocalStorageInit (some "not-json") [] = .error "SyntaxError" ∧
    mountTodoList (some "not-json") = .error "SyntaxError" ∧
    useLocalStorageInit none [] = .ok [] ∧
    useLocalStorageInit (some "") [] = .ok [] :=
  ⟨rfl, rfl, rfl, rfl⟩

/-- The session state of `src/store/authSlice.ts`:
`{ token: string | null; isAuthenticated: boolean }`. -/
structure AuthState where
  token : Option String
  isAuthenticated : Bool
deriving DecidableEq, Repr

/-- JavaScript truthiness (`!!x`) of a `string | null` value: `null` and the
empty string are falsy, every other string is truthy. -/
def truthyOptStr : Option String → Bool
  | none => false
  | some s => s != ""

/-- The session invariant named by the spec for the token-based variant:
`isAuthenticated == (token != null)`. -/
def authInvariant (s : AuthState) : Prop :=
  s.isAuthenticated = s.token.isSome

namespace AuthSlice

/-- Embeds `initialState` of `src/store/authSlice.ts`, the state Redux
starts from over a given `authToken` storage entry — the spec's
`restoreSession`: `token: localStorage.getItem('authToken')`,
`isAuthenticated: !!localStorage.getItem('authToken')`. -/
def initialState (storage : Option String) : AuthState :=
  { token := storage, isAuthenticated := truthyOptStr storage }

/-- The Redux session together with its durable `authToken` entry. -/
structure Sys where
  state : AuthState
  storage : Option String
deriving DecidableEq, Repr

/-- Embeds the `login` reducer of `authSlice`: `state.token =
action.payload; state.isAuthenticated = true;
localStorage.setItem('authToken', action.payload)`. -/
def login (payload : String) (_sys : Sys) : Sys :=
  { state := { token := some payload, isAuthenticated := true }
    storage := some payload }

/-- Embeds the `logout` reducer of `authSlice`: `state.token = null;
state.isAuthenticated = false; localStorage.removeItem('authToken')`. -/
def logout (_sys : Sys) : Sys :=
  { state := { token := none, isAuthenticated := false }
    storage := none }

end AuthSlice

/-- Claim C4 counterexample: over a storage whose `authToken` entry is the
empty string, the initial state computed by `authSlice` has `token = ""`
(which is not `null`) while `isAuthenticated = !!"" = false`, so the derived
invariant `isAuthenticated == (token != null)` does not hold in the initial
state produced by `restoreSession`. -/
theorem restore_empty_token_breaks_invariant :
    ¬ authInvariant (AuthSlice.initialState (some "")) ∧
    (AuthSlice.initialState (some "")).token = some "" ∧
    (AuthSlice.initialState (some "")).isAuthenticated = false := by
  refine ⟨fun h => ?_, rfl, rfl⟩
  exact Bool.false_ne_true h

/-- Claim C4 as amended: the invariant `isAuthenticated == (token != null)`
holds in the initial state produced by `restoreSession` provided the
persisted `authToken` entry is absent or non-empty (the condition the
operations themselves maintain), and is preserved by `login` with a
non-empty token and by `logout`. -/
theorem auth_invariant_amended (storage : Option String) (t : String)
    (sys : AuthSlice.Sys) (hs : storage ≠ some "") (_ht : t ≠ "") :
    authInvariant (AuthSlice.initialState storage) ∧
    authInvariant (AuthSlice.login t sys).state ∧
    authInvariant (AuthSlice.logout sys).state := by
  refine ⟨?_, rfl, rfl⟩
  cases storage with
  | none => rfl
  | some s =>
      have hs' : s ≠ "" := fun hc => hs (by rw [hc])
      simp [authInvariant, AuthSlice.initialState, truthyOptStr, hs']

/-- Witness for `auth_invariant_amended` at storage entry `"tok"`, login
token `"tok"`, and the logged-out system. -/
theorem auth_invariant_amended_witness :
    ((some "tok" : Option String) ≠ some "") ∧ ("tok" ≠ "") ∧
    (authInvariant (AuthSlice.initialState (some "tok")) ∧
     authInvariant (AuthSlice.login "tok" ⟨⟨none, false⟩, none⟩).state ∧
     authInvariant (AuthSlice.logout ⟨⟨none, false⟩, none⟩).state) :=
  ⟨by decide, by decide,
    auth_invariant_amended (some "tok") "tok" ⟨⟨none, false⟩, none⟩
      (by decide) (by decide)⟩

/-- Claim C5: for a non-empty token `t`, `login(t)` followed by
`restoreSession()` over the same storage — i.e. recomputing `authSlice`'s
`initialState` from the `authToken` entry `login` wrote — yields
`isAuthenticated = true` and the same token `t`. -/
theorem login_then_restore (t : String) (sys : AuthSlice.Sys) (ht : t ≠ "") :
    AuthSlice.initialState ((AuthSlice.login t sys).storage)
      = { token := some t, isAuthenticated := true } := by
  simp [AuthSlice.initialState, AuthSlice.login, truthyOptStr, ht]

/-- Witness for `login_then_restore` at the token `"tok"` over the
logged-out system. -/
theorem login_then_restore_witness :
    ("tok" ≠ "") ∧
    AuthSlice.initialState ((AuthSlice.login "tok" ⟨⟨none, false⟩, none⟩).storage)
      = { token := some "tok", isAuthenticated := true } :=
  ⟨by decide, login_then_restore "tok" ⟨⟨none, false⟩, none⟩ (by decide)⟩

namespace AuthContext

/-- The `AuthProvider` state (`src/context/AuthContext.tsx`) together with
its durable `authToken` entry: `token` is the `useState` value, seeded from
`localStorage.getItem("authToken")` on mount. -/
structure Ctx where
  token : Option String
  storage : Option String
deriving DecidableEq, Repr

/-- Embeds `AuthProvider`'s effect on `[token]`: `if (token)
localStorage.setItem("authToken", token); else
localStorage.removeItem("authToken")` — a falsy token (null or `""`)
removes the entry. -/
def syncEffect (token : Option String) : Option String :=
  if truthyOptStr token then token else none

/-- Embeds `AuthProvider.login`: `setToken(newToken)`, after which the
effect re-runs on the new token. -/
def login (newToken : String) (_st : Ctx) : Ctx :=
  { token := some newToken, storage := syncEffect (some newToken) }

/-- Embeds `AuthProvider.logout`: `setToken(null)`, after which the effect
re-runs and removes the entry. -/
def logout (_st : Ctx) : Ctx :=
  { token := none, storage := syncEffect none }

/-- The context value's derived flag: `isAuthenticated: !!token`. -/
def isAuthenticated (st : Ctx) : Bool :=
  truthyOptStr st.token

end AuthContext

/-- Claim C10: in the `AuthProvider` variant, `login("")` leaves the client
unauthenticated — `isAuthenticated = !!"" = false` — and the effect removes
the `authToken` entry (the empty string is falsy) instead of setting it;
whereas the Redux `login` reducer sets `isAuthenticated = true` for any
payload whatsoever. -/
theorem ctx_login_empty_unauthenticated (st : AuthContext.Ctx)
    (sys : AuthSlice.Sys) (p : String) :
    AuthContext.isAuthenticated (AuthContext.login "" st) = false ∧
    (AuthContext.login "" st).storage = none ∧
    (AuthSlice.login p sys).state.isAuthenticated = true :=
  ⟨rfl, rfl, rfl⟩

/-- The cookie-variant session state (Step-7 lesson `authSlice`):
`{ isAuthenticated: boolean }`, initially `false`; the credential lives in a
server-set HttpOnly cookie the client never reads. -/
structure CookieAuthState where
  isAuthenticated : Bool
deriving DecidableEq, Repr

/-- Completion status of a network round trip (the promise settling). -/
inductive NetResult where
  | success
  | failure
deriving DecidableEq, Repr

/-- Modelled from the spec: `setAuthenticated` is imported by
`src/hooks/useAuthCheck.ts` but its reducer is not among the sources; per
the spec, in the cookie variant "the client only flips a boolean flag" on
completion of the round trip, so the reducer sets the flag to its payload. -/
def setAuthenticated (b : Bool) (_s : CookieAuthState) : CookieAuthState :=
  { isAuthenticated := b }

/-- The cookie-variant initial state: `{ isAuthenticated: false }`. -/
def cookieInitialState : CookieAuthState :=
  { isAuthenticated := false }

/-- Embeds `useAuthCheck` (`src/hooks/useAuthCheck.ts`): the state
transition applied once the `GET /api/auth/validate` call settles —
`.then(() => dispatch(setAuthenticated(true)))` on success,
`.catch(() => console.log('Not authenticated'))` on failure, which
dispatches nothing and leaves the state as it was. -/
def useAuthCheck (r : NetResult) (s : CookieAuthState) : CookieAuthState :=
  match r with
  | .success => setAuthenticated true s
  | .failure => s

/-- Embeds the `loginUser` thunk of the Step-7 cookie `authSlice`: the
`fulfilled` case sets the flag to `true`; there is no `rejected` case, so a
failed call leaves the state unchanged. -/
def loginUser (r : NetResult) (s : CookieAuthState) : CookieAuthState :=
  match r with
  | .success => { isAuthenticated := true }
  | .failure => s

/-- Embeds the `logoutUser` thunk of the Step-7 cookie `authSlice`: the
`fulfilled` case sets the flag to `false`; there is no `rejected` case, so a
failed call leaves the state unchanged. -/
def logoutUser (r : NetResult) (s : CookieAuthState) : CookieAuthState :=
  match r with
  | .success => { isAuthenticated := false }
  | .failure => s

/-- Claim C9: in the cookie variant the flag is a function of the settled
network result only — a failed `validateSession`, `loginUser` or
`logoutUser` leaves the flag at its previous value, and a client starting
from the unauthenticated initial state stays unauthenticated after a failed
`validateSession`; the flag becomes `true` only on success. -/
theorem cookie_failure_leaves_flag (s : CookieAuthState) :
    useAuthCheck .failure s = s ∧
    loginUser .failure s = s ∧
    logoutUser .failure s = s ∧
    (useAuthCheck .failure cookieInitialState).isAuthenticated = false ∧
    (useAuthCheck .success s).isAuthenticated = true :=
  ⟨rfl, rfl, rfl, rfl, rfl⟩

/-- Claim C8: REMOVE with the same id is idempotent — the second REMOVE is a
no-op, because the first filter already removed every entry whose id equals
the payload. -/
theorem remove_idempotent (n₁ n₂ p : Nat) (l : List Todo) :
    todoReducer n₂ (todoReducer n₁ l (.REMOVE p)) (.REMOVE p)
      = todoReducer n₁ l (.REMOVE p) := by
  simp only [todoReducer]
  induction l with
  | nil => rfl
  | cons t ts ih =>
      cases h : (t.id != p) <;>
        simp [List.filter_cons, h, ih]
